import Mathlib

/-!
Verification of the pdf-password-remover core against its specification.

The development shallowly embeds the two C++ source files:
`src/wasm/pdf-handler.cpp` (class PDFPasswordRemover: the scanner
`findEncryptionDict`, the RC4 primitives `rc4KeySchedule` / `rc4Cipher`,
and the pipeline entry `removePDFPassword`) and `src/wasm/bindings.cpp`
(class PDFRemoverWrapper: the external entry point `processPDF` holding
`lastOutput` / `lastLog` state).  Byte strings are modelled as `List Char`
(document text) or `List Nat` (RC4 byte values); the accumulated log of
the remover is a `List String` of messages, joined with a newline per
message exactly as the C++ `log` member does.
-/

namespace PDFRemover

/-- Pattern `pat` occurs in `hay` starting at index `i` (a full match must
fit, mirroring `std::string::find` semantics). -/
def occursAt (hay pat : List Char) (i : Nat) : Bool :=
  pat.isPrefixOf (hay.drop i)

/-- Model of `std::string::find(pat, start)`: the smallest index `i ≥ start`
at which `pat` occurs, `none` standing for `npos`. -/
def strFindFrom (hay pat : List Char) (start : Nat) : Option Nat :=
  (List.range (hay.length + 1)).find? (fun i => decide (start ≤ i) && occursAt hay pat i)

/-- Model of `std::string::find(pat)`. -/
def strFind (hay pat : List Char) : Option Nat :=
  strFindFrom hay pat 0

/-- Model of `std::string::rfind(pat, pos)`: the largest index `i ≤ pos`
at which `pat` occurs, `none` standing for `npos`. -/
def strRfind (hay pat : List Char) (pos : Nat) : Option Nat :=
  ((List.range (hay.length + 1)).filter (fun i => decide (i ≤ pos) && occursAt hay pat i)).getLast?

/-- Whether `pat` occurs anywhere in `hay`. -/
def hasSubstring (hay pat : List Char) : Bool :=
  (strFind hay pat).isSome

/-- The literal `/Encrypt` searched for by the scanner. -/
def encLit : List Char := "/Encrypt".toList

/-- The 4-byte header literal the code compares against (`%PDF`). -/
def headerLit : List Char := "%PDF".toList

/-- The full 5-byte PDF header (`%PDF-`) named by the specification. -/
def pdfHeader5 : List Char := "%PDF-".toList

/-- Embedding of `PDFPasswordRemover::findEncryptionDict` (pdf-handler.cpp
lines 34-59).  Returns the extracted dictionary text together with the log
messages the member function emits, in order.  The C++ code searches for the
substring `/Encrypt`, takes the last `<<` at or before it and the first `>>`
at or after that `<<`, and returns the empty string when any search fails. -/
def findEncryptionDict (pdf : List Char) : List Char × List String :=
  match strFind pdf encLit with
  | none => ([], ["No encryption found in PDF"])
  | some encPos =>
    match strRfind pdf ("<<".toList) encPos with
    | none => ([], ["Found /Encrypt entry at position: " ++ toString encPos,
                    "ERROR: Could not find encryption dictionary start"])
    | some start =>
      match strFindFrom pdf (">>".toList) start with
      | none => ([], ["Found /Encrypt entry at position: " ++ toString encPos,
                      "ERROR: Could not find encryption dictionary end"])
      | some e =>
        ((pdf.drop start).take (e - start + 2),
         ["Found /Encrypt entry at position: " ++ toString encPos,
          "Encryption dict size: " ++ toString ((pdf.drop start).take (e - start + 2)).length ++ " bytes"])

/-- The fixed messages logged on the encrypted (stub) path of
`removePDFPassword` (pdf-handler.cpp lines 143-153). -/
def stubMsgs : List String :=
  ["PDF is encrypted but decryption not yet fully implemented",
   "A complete implementation would:",
   "  1. Parse the encryption dictionary",
   "  2. Compute the encryption key from password",
   "  3. Decrypt the streams and strings",
   "  4. Remove the /Encrypt entry",
   "",
   "Recommended alternatives:",
   "  - Build QPDF for Emscripten (full PDF support)",
   "  - Use pre-compiled WASM PDF library (e.g., pdfium.wasm)",
   "  - Use PDF.js with password support (JavaScript fallback)"]

/-- Embedding of `PDFPasswordRemover::removePDFPassword` (pdf-handler.cpp
lines 110-166).  The first component is the out-parameter `outputData`:
`none` when the function returns `false` without assigning it, `some bytes`
when it returns `true`.  The second component is the list of log messages
appended to `allLogs` during the call, in order.  The C++ control flow is
mirrored branch for branch: empty-input-or-password check, 4-byte header
check (`substr(0, 4) != "%PDF"`), then `findEncryptionDict`; both remaining
paths return the input unchanged with success. -/
def removePDFPassword (inputData password : List Char) : Option (List Char) × List String :=
  if inputData = [] ∨ password = [] then
    (none, ["=== Starting PDF password removal ===",
            "Input size: " ++ toString inputData.length ++ " bytes",
            "Password length: " ++ toString password.length ++ " chars",
            "ERROR: Empty input or password"])
  else if inputData.take 4 ≠ headerLit then
    (none, ["=== Starting PDF password removal ===",
            "Input size: " ++ toString inputData.length ++ " bytes",
            "Password length: " ++ toString password.length ++ " chars",
            "ERROR: Input does not start with PDF header"])
  else if (findEncryptionDict inputData).1 = [] then
    (some inputData,
     ["=== Starting PDF password removal ===",
      "Input size: " ++ toString inputData.length ++ " bytes",
      "Password length: " ++ toString password.length ++ " chars",
      "PDF header validation: OK"]
       ++ (findEncryptionDict inputData).2
       ++ ["PDF is not encrypted, returning as-is",
           "=== PDF processing complete (unencrypted) ==="])
  else
    (some inputData,
     ["=== Starting PDF password removal ===",
      "Input size: " ++ toString inputData.length ++ " bytes",
      "Password length: " ++ toString password.length ++ " chars",
      "PDF header validation: OK"]
       ++ (findEncryptionDict inputData).2
       ++ stubMsgs
       ++ ["=== PDF processing complete (returned unchanged) ==="])

/-- State held by the `PDFRemoverWrapper` instance across calls
(bindings.cpp lines 28-33): the stored output bytes, the string returned by
`getLog`, and the log messages accumulated inside the owned
`PDFPasswordRemover` member (its `allLogs`, which only ever grows). -/
structure WrapperState where
  lastOutput : List Char
  lastLog : List Char
  removerLogs : List String
deriving DecidableEq

/-- A freshly constructed wrapper: empty output, empty log. -/
def initState : WrapperState := ⟨[], [], []⟩

/-- Join accumulated messages the way `PDFPasswordRemover::log` does:
every message is followed by one newline character. -/
def joinLogs (msgs : List String) : List Char :=
  (msgs.map (fun m => m.toList ++ ['\n'])).flatten

/-- Embedding of `PDFRemoverWrapper::processPDF` (bindings.cpp lines
41-79), the external `process` entry point.  Empty input and empty password
are rejected at the boundary, returning `false` with the wrapper state
untouched (in particular `removePDFPassword` is never invoked).  Otherwise
the core runs; on success `lastOutput` is overwritten with the produced
bytes, and in both cases `lastLog` becomes the full accumulated remover
log. -/
def processPDF (st : WrapperState) (inputData password : List Char) : Bool × WrapperState :=
  if inputData = [] then (false, st)
  else if password = [] then (false, st)
  else
    match removePDFPassword inputData password with
    | (some out, msgs) =>
        (true, ⟨out, joinLogs (st.removerLogs ++ msgs), st.removerLogs ++ msgs⟩)
    | (none, msgs) =>
        (false, ⟨st.lastOutput, joinLogs (st.removerLogs ++ msgs), st.removerLogs ++ msgs⟩)

/-- Swap of two positions of a byte-table, mirroring `std::swap(s[a], s[b])`
on a `std::vector` (both cells are read before either is written). -/
def listSwap (l : List Nat) (a b : Nat) : List Nat :=
  (l.set a (l.getD b 0)).set b (l.getD a 0)

/-- One iteration of the RC4 key-schedule loop (pdf-handler.cpp lines
70-73): the accumulator carries the table `s` and the running index `j`. -/
def ksaStep (key : List Nat) (acc : List Nat × Nat) (i : Nat) : List Nat × Nat :=
  ((listSwap acc.1 i ((acc.2 + acc.1.getD i 0 + key.getD (i % key.length) 0) % 256)),
   (acc.2 + acc.1.getD i 0 + key.getD (i % key.length) 0) % 256)

/-- Embedding of `PDFPasswordRemover::rc4KeySchedule` (pdf-handler.cpp
lines 64-75): the identity table 0..255 permuted by 256 key-dependent
swaps. -/
def rc4KeySchedule (key : List Nat) : List Nat :=
  ((List.range 256).foldl (ksaStep key) (List.range 256, 0)).1

/-- Embedding of the RC4 pseudo-random generation loop of
`PDFPasswordRemover::rc4Cipher` (pdf-handler.cpp lines 85-93), threading
the table and the two indices through the data bytes and XOR-ing each data
byte with the generated keystream byte. -/
def rc4Prga : List Nat → Nat → Nat → List Nat → List Nat
  | _, _, _, [] => []
  | s, i, j, d :: rest =>
    let i2 := (i + 1) % 256
    let j2 := (j + s.getD i2 0) % 256
    let s2 := listSwap s i2 j2
    let kv := s2.getD ((s2.getD i2 0 + s2.getD j2 0) % 256) 0
    (d ^^^ kv) :: rc4Prga s2 i2 j2 rest

/-- Embedding of `PDFPasswordRemover::rc4Cipher` (pdf-handler.cpp lines
80-97): key schedule, then the PRGA starting from `i = 0`, `j = 0`.  The
log call inside the member function does not influence the ciphertext and
is omitted here. -/
def rc4Cipher (data : List Nat) (key : List Nat) : List Nat :=
  rc4Prga (rc4KeySchedule key) 0 0 data

/-- Document used for the encrypted-path claims: a well-formed header, a
trailer whose `/Encrypt` entry is the indirect reference `5 0 R`, and the
referenced standard-security dictionary. -/
def docEncrypted : List Char :=
  "%PDF-1.4 trailer <</Encrypt 5 0 R /ID [(ab)(ab)]>> 5 0 obj <</Filter /Standard /V 1 /R 2 /O (o) /U (u) /P -44>> endobj %%EOF".toList

/-- Document beginning with the 4 bytes `%PDF` but not with the 5-byte
header `%PDF-`, and containing no encryption. -/
def docNoDash : List Char := "%PDFX 1.4 no dash header".toList

/-- Document whose trailer holds an indirect `/Encrypt 7 0 R` reference,
with the actual encryption dictionary stored in object `7 0 obj`. -/
def docIndirect : List Char :=
  "%PDF-1.4 trailer <</Size 9 /Encrypt 7 0 R>> 7 0 obj <</Filter /Standard /CF <</StdCF 1>> /V 2>> endobj".toList

/-- Document whose inline `/Encrypt` value is a dictionary containing a
nested dictionary, so that the first `>>` closes the inner one. -/
def docNested : List Char :=
  "%PDF-1.4 trailer <</Encrypt <</Filter /Standard /V 2>> /P -44 /U (abc)>> rest".toList

theorem strFind_none_of_not_hasSubstring (hay pat : List Char)
    (h : hasSubstring hay pat = false) : strFind hay pat = none := by
  unfold hasSubstring at h
  cases hf : strFind hay pat with
  | none => rfl
  | some v => rw [hf] at h; simp at h

theorem removePDF_pw_length (input pw1 pw2 : List Char) (h : pw1.length = pw2.length) :
    removePDFPassword input pw1 = removePDFPassword input pw2 := by
  cases pw1 with
  | nil =>
    cases pw2 with
    | nil => rfl
    | cons b t2 => simp at h
  | cons a t1 =>
    cases pw2 with
    | nil => simp at h
    | cons b t2 =>
      unfold removePDFPassword
      rw [h]
      simp

theorem removePDF_output_unchanged (input pw : List Char) :
    (removePDFPassword input pw).1 = none ∨ (removePDFPassword input pw).1 = some input := by
  unfold removePDFPassword
  by_cases h1 : input = [] ∨ pw = []
  · simp [h1]
  · by_cases h2 : input.take 4 ≠ headerLit
    · simp [h1, h2]
    · by_cases h3 : (findEncryptionDict input).1 = [] <;> simp [h1, h2, h3]

theorem removePDF_bad_header (input pw : List Char) (h : input.take 4 ≠ headerLit) :
    (removePDFPassword input pw).1 = none := by
  unfold removePDFPassword
  by_cases h1 : input = [] ∨ pw = [] <;> simp [h1, h]

set_option maxRecDepth 40000 in
/-- C1: the claim requires that processing an RC4-encrypted document with
its correct password succeeds with an output containing no `/Encrypt`
entry.  Evaluating the embedded code at such a document shows the call
reports success but stores the input bytes unchanged, `/Encrypt` entry
included: decryption and `/Encrypt` removal are not implemented. -/
theorem encrypted_doc_returned_unchanged :
    (processPDF initState docEncrypted ("owner123".toList)).1 = true ∧
    (processPDF initState docEncrypted ("owner123".toList)).2.lastOutput = docEncrypted ∧
    hasSubstring docEncrypted encLit = true := by decide

set_option maxRecDepth 40000 in
/-- C2: the claim requires that a wrong password on an encrypted document
fails with IncorrectPassword and produces no output.  Evaluating the
embedded code shows the password is never validated: the call reports
success and stores the still-encrypted input as output. -/
theorem wrong_password_reports_success :
    (processPDF initState docEncrypted ("totallywrong".toList)).1 = true ∧
    (processPDF initState docEncrypted ("totallywrong".toList)).2.lastOutput = docEncrypted := by
  decide

/-- C3: for a valid PDF (5-byte header `%PDF-`) containing no `/Encrypt`
key anywhere and any non-empty password, process succeeds, the stored
output is the input bytes unchanged, and the not-encrypted success path is
the one taken (its log message is emitted). -/
theorem unencrypted_pdf_returned_unchanged (st : WrapperState) (input pw : List Char)
    (hhdr : input.take 5 = pdfHeader5)
    (henc : hasSubstring input encLit = false)
    (hpw : pw ≠ []) :
    (processPDF st input pw).1 = true ∧
    (processPDF st input pw).2.lastOutput = input ∧
    "PDF is not encrypted, returning as-is" ∈ (removePDFPassword input pw).2 := by
  have hne : input ≠ [] := by
    intro hnil
    rw [hnil] at hhdr
    exact absurd hhdr (by decide)
  have h4 : input.take 4 = headerLit := by
    have h5 := congrArg (List.take 4) hhdr
    rw [List.take_take] at h5
    simpa [headerLit, pdfHeader5] using h5
  have hfd : (findEncryptionDict input).1 = [] := by
    unfold findEncryptionDict
    rw [strFind_none_of_not_hasSubstring input encLit henc]
  have hrem1 : (removePDFPassword input pw).1 = some input := by
    unfold removePDFPassword
    simp [hne, hpw, h4, hfd]
  have hrem2 : "PDF is not encrypted, returning as-is" ∈ (removePDFPassword input pw).2 := by
    unfold removePDFPassword
    simp [hne, hpw, h4, hfd]
  cases hr : removePDFPassword input pw with
  | mk o msgs =>
    rw [hr] at hrem1 hrem2
    simp at hrem1
    subst hrem1
    refine ⟨?_, ?_, hrem2⟩
    · unfold processPDF
      simp [hne, hpw, hr]
    · unfold processPDF
      simp [hne, hpw, hr]

/-- Witness for the unencrypted-document theorem at a concrete document
and password. -/
theorem unencrypted_pdf_returned_unchanged_w :
    (("%PDF-1.4 hello".toList.take 5 = pdfHeader5) ∧
     hasSubstring ("%PDF-1.4 hello".toList) encLit = false ∧
     ("x".toList ≠ [])) ∧
    ((processPDF initState ("%PDF-1.4 hello".toList) ("x".toList)).1 = true ∧
     (processPDF initState ("%PDF-1.4 hello".toList) ("x".toList)).2.lastOutput = "%PDF-1.4 hello".toList ∧
     "PDF is not encrypted, returning as-is" ∈
       (removePDFPassword ("%PDF-1.4 hello".toList) ("x".toList)).2) :=
  ⟨⟨by decide, by decide, by decide⟩,
   unencrypted_pdf_returned_unchanged initState ("%PDF-1.4 hello".toList) ("x".toList)
     (by decide) (by decide) (by decide)⟩

/-- C4: calling process with an empty password fails and leaves the whole
wrapper state untouched: the rejection happens at the external boundary in
`processPDF`, before `removePDFPassword` (and hence any later pipeline
stage) runs, as witnessed by the accumulated log not growing. -/
theorem empty_password_rejected_at_boundary (st : WrapperState) (input : List Char) :
    processPDF st input [] = (false, st) := by
  unfold processPDF
  by_cases h : input = [] <;> simp [h]

/-- C5 counterexample: this input does not begin with the 5-byte header
`%PDF-` (its fifth byte is `X`), yet process succeeds, because the code
compares only the first 4 bytes against `%PDF`.  The claim that every such
input fails is therefore false. -/
theorem header_check_only_four_bytes :
    (processPDF initState docNoDash ("a".toList)).1 = true := by decide

/-- C5 amended: process fails for every input whose first four bytes are
not `%PDF` (this covers the empty and too-short inputs); for non-empty
input and password the failure cause is reported in the diagnostic log. -/
theorem bad_header_fails (st : WrapperState) (input pw : List Char)
    (h : input.take 4 ≠ headerLit) :
    (processPDF st input pw).1 = false ∧
      (input ≠ [] → pw ≠ [] →
        "ERROR: Input does not start with PDF header" ∈ (removePDFPassword input pw).2) := by
  constructor
  · by_cases h1 : input = []
    · simp [processPDF, h1]
    · by_cases h2 : pw = []
      · simp [processPDF, h1, h2]
      · cases hr : removePDFPassword input pw with
        | mk o msgs =>
          have hn := removePDF_bad_header input pw h
          rw [hr] at hn
          simp at hn
          subst hn
          simp [processPDF, h1, h2, hr]
  · intro h1 h2
    unfold removePDFPassword
    simp [h1, h2, h]

/-- Witness for the amended header theorem at a concrete input. -/
theorem bad_header_fails_w :
    ("junk".toList.take 4 ≠ headerLit) ∧
    ((processPDF initState ("junk".toList) ("a".toList)).1 = false ∧
      ("junk".toList ≠ [] → "a".toList ≠ [] →
        "ERROR: Input does not start with PDF header" ∈
          (removePDFPassword ("junk".toList) ("a".toList)).2)) :=
  ⟨by decide, bad_header_fails initState ("junk".toList) ("a".toList) (by decide)⟩

/-- C6: the claim requires the scanner to resolve the indirect reference
`7 0 R`, extract the dictionary of object `7 0 obj`, and match `<<` / `>>`
with nesting depth.  Evaluating the embedded scanner shows it instead
returns the trailer dictionary found by substring search (missing the
`/Filter` parameters entirely), and on a nested inline dictionary it stops
at the first `>>`, truncating the entry. -/
theorem scanner_substring_only :
    (findEncryptionDict docIndirect).1 = "<</Size 9 /Encrypt 7 0 R>>".toList ∧
    hasSubstring (findEncryptionDict docIndirect).1 ("7 0 obj".toList) = false ∧
    hasSubstring (findEncryptionDict docIndirect).1 ("/Filter".toList) = false ∧
    (findEncryptionDict docNested).1 = "<</Encrypt <</Filter /Standard /V 2>>".toList ∧
    hasSubstring (findEncryptionDict docNested).1 ("/U".toList) = false := by decide

/-- C7: the outcome of process and, on success, the stored output bytes
are a function of the input bytes and password only: two calls with
identical arguments agree regardless of the wrapper state left behind by
earlier calls. -/
theorem process_deterministic (s1 s2 : WrapperState) (input pw : List Char) :
    (processPDF s1 input pw).1 = (processPDF s2 input pw).1 ∧
    ((processPDF s1 input pw).1 = true →
      (processPDF s1 input pw).2.lastOutput = (processPDF s2 input pw).2.lastOutput) := by
  by_cases h1 : input = []
  · simp [processPDF, h1]
  · by_cases h2 : pw = []
    · simp [processPDF, h1, h2]
    · cases hr : removePDFPassword input pw with
      | mk o msgs => cases o <;> simp [processPDF, h1, h2, hr]

/-- Witness for determinism: two wrapper states with different histories
produce the same outcome and output on the same arguments. -/
theorem process_deterministic_w :
    (processPDF initState docEncrypted ("pw1word".toList)).1 =
      (processPDF ⟨"z".toList, "q".toList, ["m"]⟩ docEncrypted ("pw1word".toList)).1 ∧
    ((processPDF initState docEncrypted ("pw1word".toList)).1 = true →
      (processPDF initState docEncrypted ("pw1word".toList)).2.lastOutput =
        (processPDF ⟨"z".toList, "q".toList, ["m"]⟩ docEncrypted ("pw1word".toList)).2.lastOutput) :=
  process_deterministic initState ⟨"z".toList, "q".toList, ["m"]⟩ docEncrypted ("pw1word".toList)

/-- C8: process never exposes partial output: on failure the caller-visible
stored output bytes are exactly what they were before the call, and on
success they are exactly the produced document (which the code always sets
in one assignment, never a partially decrypted buffer). -/
theorem process_no_partial_output (st : WrapperState) (input pw : List Char) :
    ((processPDF st input pw).1 = false →
      (processPDF st input pw).2.lastOutput = st.lastOutput) ∧
    ((processPDF st input pw).1 = true →
      (processPDF st input pw).2.lastOutput = input) := by
  by_cases h1 : input = []
  · simp [processPDF, h1]
  · by_cases h2 : pw = []
    · simp [processPDF, h1, h2]
    · cases hr : removePDFPassword input pw with
      | mk o msgs =>
        cases o with
        | none => simp [processPDF, h1, h2, hr]
        | some out =>
          have ho := removePDF_output_unchanged input pw
          rw [hr] at ho
          simp at ho
          subst ho
          simp [processPDF, h1, h2, hr]

/-- Witness for the no-partial-output theorem at a concrete call. -/
theorem process_no_partial_output_w :
    (((processPDF initState ("%PDF-doc".toList) ("pw".toList)).1 = false →
        (processPDF initState ("%PDF-doc".toList) ("pw".toList)).2.lastOutput =
          initState.lastOutput) ∧
     ((processPDF initState ("%PDF-doc".toList) ("pw".toList)).1 = true →
        (processPDF initState ("%PDF-doc".toList) ("pw".toList)).2.lastOutput =
          "%PDF-doc".toList)) :=
  process_no_partial_output initState ("%PDF-doc".toList) ("pw".toList)

set_option maxRecDepth 40000 in
/-- C9 counterexample: with the non-empty password `PDF`, the diagnostic
trace after a process call contains the password verbatim as a substring,
because the fixed log text itself contains `PDF`.  The claim as stated
(never a substring, for every password) is therefore false. -/
theorem log_contains_pdf_password :
    hasSubstring ((processPDF initState ("x".toList) ("PDF".toList)).2.lastLog)
      ("PDF".toList) = true := by decide

/-- C9 amended: the diagnostic trace never depends on the password content,
only on its length (only the length is logged), so the password value and
any derived key never flow into the trace; two passwords of equal length
yield byte-identical results and traces. -/
theorem log_depends_only_on_password_length (st : WrapperState) (input pw1 pw2 : List Char)
    (h : pw1.length = pw2.length) :
    processPDF st input pw1 = processPDF st input pw2 := by
  have hcore : removePDFPassword input pw1 = removePDFPassword input pw2 :=
    removePDF_pw_length input pw1 pw2 h
  have hnil : (pw1 = []) ↔ (pw2 = []) := by
    cases pw1 <;> cases pw2 <;> simp_all
  unfold processPDF
  by_cases h1 : input = []
  · simp [h1]
  · by_cases h2 : pw1 = []
    · simp [h1, h2, hnil.mp h2]
    · have h2' : ¬ pw2 = [] := fun hx => h2 (hnil.mpr hx)
      simp [h1, h2, h2', hcore]

/-- Witness for the password-length theorem with two distinct equal-length
passwords. -/
theorem log_depends_only_on_password_length_w :
    processPDF initState ("%PDF-1.4".toList) ("abc".toList) =
      processPDF initState ("%PDF-1.4".toList) ("xyz".toList) :=
  log_depends_only_on_password_length initState ("%PDF-1.4".toList) ("abc".toList)
    ("xyz".toList) (by decide)

theorem rc4Prga_length (data : List Nat) :
    ∀ s i j, (rc4Prga s i j data).length = data.length := by
  induction data with
  | nil => intro s i j; rfl
  | cons d rest ih =>
    intro s i j
    simp only [rc4Prga, List.length_cons]
    rw [ih]

theorem rc4Prga_invol (data : List Nat) :
    ∀ s i j, rc4Prga s i j (rc4Prga s i j data) = data := by
  induction data with
  | nil => intro s i j; rfl
  | cons d rest ih =>
    intro s i j
    simp only [rc4Prga]
    congr 1
    · rw [Nat.xor_assoc, Nat.xor_self, Nat.xor_zero]
    · exact ih _ _ _

/-- C10: for a non-empty key, the RC4 cipher of the source preserves the
length of the data and is an involution: enciphering twice with the same
key returns the original bytes.  The keystream depends only on the key and
the running table state, never on the data, so the two passes XOR the same
keystream. -/
theorem rc4Cipher_length_preserving_involution (data key : List Nat) (hk : key ≠ []) :
    (rc4Cipher data key).length = data.length ∧
    rc4Cipher (rc4Cipher data key) key = data :=
  ⟨rc4Prga_length data (rc4KeySchedule key) 0 0, rc4Prga_invol data (rc4KeySchedule key) 0 0⟩

/-- Witness for the RC4 theorem at a concrete key and data. -/
theorem rc4Cipher_length_preserving_involution_w :
    (([1, 2, 3] : List Nat) ≠ []) ∧
    ((rc4Cipher [10, 20, 30] [1, 2, 3]).length = ([10, 20, 30] : List Nat).length ∧
      rc4Cipher (rc4Cipher [10, 20, 30] [1, 2, 3]) [1, 2, 3] = [10, 20, 30]) :=
  ⟨by decide, rc4Cipher_length_preserving_involution [10, 20, 30] [1, 2, 3] (by decide)⟩

end PDFRemover
